import Mathlib

/-!
Verification of the BPP Life Support Payload data logger
(src/LifeSupportSD.ino) as a shallow embedding.

The sketch runs a fixed 5-second acquisition cycle: read six sensor
sources, re-enable the shared SPI bus, append one CSV record to the SD
card while mirroring every byte to the serial console, release SPI, and
sleep out the remainder of the interval.  We model one iteration of
`loop()` as a pure function from the persistent SCD41 state and the
cycle's sensor inputs to the next state together with a trace of
observable events (bus transitions, file and console writes, LED
writes, delays).

Float values are modelled by `FVal`: either NaN or an exact count of
hundredths.  Every float the sketch prints goes through `dtostrf` with
precision 2, which observes only the value rounded to hundredths, so
the model carries readings already rounded to that grid.  The Sensirion
driver calls (`getDataReadyStatus`, `readMeasurement`) are external
black boxes; per their contract their reference out-parameters are
assigned only on success (error code 0), which is how the sketch's
`isDataReady = false` initialisation and last-known-value globals get
their stale-on-error behaviour.
-/

/-- A sensor float reading: NaN, or an exact value in hundredths
(e.g. `21.50` degrees is `num 2150`). -/
inductive FVal where
  | nan : FVal
  | num : Int → FVal
deriving DecidableEq, Repr

/-- C `isnan` on a modelled float. -/
def FVal.isNan : FVal → Bool
  | .nan => true
  | .num _ => false

/-- C `==` on modelled floats: NaN compares unequal to everything. -/
def FVal.feq : FVal → FVal → Bool
  | .num a, .num b => a == b
  | _, _ => false

/-- Decimal digits of a natural number, most significant first,
computed with explicit fuel (fuel `n + 1` always suffices). -/
def natDigitsAux : Nat → Nat → List Char
  | 0, _ => []
  | fuel + 1, n =>
    if n < 10 then [Nat.digitChar n]
    else natDigitsAux fuel (n / 10) ++ [Nat.digitChar (n % 10)]

/-- Decimal rendering of a natural number (Arduino `Serial.print` on an
unsigned integer). -/
def natStr (n : Nat) : String :=
  ⟨natDigitsAux (n + 1) n⟩

/-- Decimal rendering of a signed integer (Arduino `Serial.print` on an
`int`). -/
def intStr (i : Int) : String :=
  if i < 0 then ("-") ++ natStr i.natAbs else natStr i.natAbs

/-- Left-pad a string with a fill character up to a minimum width. -/
def leftPad (c : Char) (w : Nat) (s : String) : String :=
  if s.length < w then (⟨List.replicate (w - s.length) c⟩ : String) ++ s else s

/-- Fixed-point rendering of a hundredths count with exactly two
digits after the decimal point (`-50 ↦ "-0.50"`, `2150 ↦ "21.50"`). -/
def fixed2 (v : Int) : String :=
  (if v < 0 then ("-") else ("")) ++ natStr (v.natAbs / 100) ++ (".") ++
    leftPad '0' 2 (natStr (v.natAbs % 100))

/-- avr-libc `dtostrf(v, w, 2, buf)`: two decimal places, left-padded
with spaces to minimum width `w`; NaN renders as `nan`. -/
def dtostrf (w : Nat) (v : FVal) : String :=
  match v with
  | .nan => leftPad ' ' w ("nan")
  | .num c => leftPad ' ' w (fixed2 c)

/-- Zero-padded decimal field of minimum width `w` (for `sprintf`
`%0wd`). -/
def pad0 (w : Nat) (n : Nat) : String :=
  leftPad '0' w (natStr n)

/-- Calendar timestamp as read from the DS1307 RTC. -/
structure DateTime where
  year : Nat
  month : Nat
  day : Nat
  hour : Nat
  minute : Nat
  second : Nat
deriving DecidableEq, Repr

/-- The `sprintf(tempBuffer, "%04d-%02d-%02dT%02d:%02d:%02d", ...)`
timestamp formatting of `loop()`. -/
def timestampStr (t : DateTime) : String :=
  pad0 4 t.year ++ ("-") ++ pad0 2 t.month ++ ("-") ++ pad0 2 t.day ++ ("T") ++
    pad0 2 t.hour ++ (":") ++ pad0 2 t.minute ++ (":") ++ pad0 2 t.second

/-- The `DEVICE_DISCONNECTED_C` sentinel of the DallasTemperature
library: -127 degrees C. -/
def DEVICE_DISCONNECTED_C : FVal := .num (-12700)

/-- The static globals holding the last known SCD41 measurement
(`scd4x_co2`, `scd4x_temp`, `scd4x_hum`). -/
structure ScdState where
  co2 : Nat
  temp : FVal
  hum : FVal
deriving DecidableEq, Repr

/-- Initial values of the SCD41 globals: `0`, `0.0f`, `0.0f`. -/
def ScdInit : ScdState := ⟨0, .num 0, .num 0⟩

/-- One cycle's external inputs: the raw sensor readings, the RTC
time, the outcomes of the two SCD41 driver calls, and whether the SD
file open succeeds.  `scdReadyStatus` is `.ok b` when
`getDataReadyStatus` succeeds reporting `b`, `.error e` when it returns
error code `e` (leaving `isDataReady` at its `false` initialisation);
`scdMeasurement` is `.ok (co2, t, h)` when `readMeasurement` succeeds
writing its out-parameters, `.error e` when it fails leaving the
globals untouched. -/
structure CycleInputs where
  dht_h : FVal
  dht_t : FVal
  uvValue : Int
  press_mBar : FVal
  press_Temp : FVal
  press_Alt : FVal
  now : DateTime
  probeRaw : FVal
  scdReadyStatus : Except Nat Bool
  scdMeasurement : Except Nat (Nat × FVal × FVal)
  sdOpenOk : Bool

/-- The sensor sources polled in step 1-6 of `loop()`. -/
inductive Sensor where
  | dht22
  | uvm30a
  | ms5611
  | ds1307
  | ds18b20
  | scd41
deriving DecidableEq, Repr

/-- Observable events of one `loop()` iteration. -/
inductive Event where
  | sensorRead : Sensor → Event
  | spiBegin : Event
  | sdOpen : Bool → Event
  | serialWrite : String → Event
  | fileWrite : String → Event
  | fileClose : Event
  | ledWrite : Bool → Event
  | delayMs : Nat → Event
  | spiEnd : Event
deriving DecidableEq, Repr

/-- Carriage-return line-feed pair emitted by Arduino `println`. -/
def crlf : String := ("\x0d\x0a")

/-- Step 6 of `loop()`, effect on the globals: when a successful
`getDataReadyStatus` reports ready, `readMeasurement` writes straight
into the three globals (a zero CO2 reading falls into an empty `else
if` branch and is kept as written); on any error the globals are left
unchanged. -/
def scdUpdate (st : ScdState) (inp : CycleInputs) : ScdState :=
  match inp.scdReadyStatus with
  | .error _ => st
  | .ok isDataReady =>
      if isDataReady then
        match inp.scdMeasurement with
        | .error _ => st
        | .ok (c, t, h) => ⟨c, t, h⟩
      else st

/-- Step 6 of `loop()`, console output: each failing SCD41 driver call
prints a tag and the error code. -/
def scdEvents (inp : CycleInputs) : List Event :=
  match inp.scdReadyStatus with
  | .error e => [.serialWrite ("SCD4R_ERR:"), .serialWrite (natStr e ++ crlf)]
  | .ok isDataReady =>
      if isDataReady then
        match inp.scdMeasurement with
        | .error e => [.serialWrite ("SCD4M_ERR:"), .serialWrite (natStr e ++ crlf)]
        | .ok _ => []
      else []

/-- Lines 209-212 of `loop()`: a probe reading equal to
`DEVICE_DISCONNECTED_C` is replaced by the error value `-127.0`. -/
def probeVal (raw : FVal) : FVal :=
  if FVal.feq raw DEVICE_DISCONNECTED_C then .num (-12700) else raw

/-- The DHT temperature/humidity field: literal `NaN` when the reading
is NaN, otherwise `dtostrf(v, 4, 2, buf)` (lines 249-268). -/
def dhtField (v : FVal) : String :=
  if v.isNan then ("NaN") else dtostrf 4 v

/-- The adjacent `Serial.print(s); dataFile.print(s);` statement pair
of the write section. -/
def printBoth (s : String) : List Event :=
  [.serialWrite s, .fileWrite s]

/-- The ten data field strings of one record, in source print order,
given the post-update SCD state and the cycle inputs. -/
def dataFields (st : ScdState) (inp : CycleInputs) : List String :=
  [ dhtField inp.dht_t,
    dhtField inp.dht_h,
    intStr inp.uvValue,
    dtostrf 6 inp.press_mBar,
    dtostrf 4 inp.press_Temp,
    dtostrf 6 inp.press_Alt,
    dtostrf 4 (probeVal inp.probeRaw),
    natStr st.co2,
    dtostrf 4 st.temp,
    dtostrf 4 st.hum ]

/-- Step 8 of `loop()` (lines 239-322): the piece-by-piece dual print
of the record, mirroring the source statement order: timestamp, then a
comma and a field for each of the ten readings, then `println()` on
both sinks. -/
def writeEvents (st : ScdState) (inp : CycleInputs) : List Event :=
  printBoth (timestampStr inp.now) ++
  printBoth (",") ++ printBoth (dhtField inp.dht_t) ++
  printBoth (",") ++ printBoth (dhtField inp.dht_h) ++
  printBoth (",") ++ printBoth (intStr inp.uvValue) ++
  printBoth (",") ++ printBoth (dtostrf 6 inp.press_mBar) ++
  printBoth (",") ++ printBoth (dtostrf 4 inp.press_Temp) ++
  printBoth (",") ++ printBoth (dtostrf 6 inp.press_Alt) ++
  printBoth (",") ++ printBoth (dtostrf 4 (probeVal inp.probeRaw)) ++
  printBoth (",") ++ printBoth (natStr st.co2) ++
  printBoth (",") ++ printBoth (dtostrf 4 st.temp) ++
  printBoth (",") ++ printBoth (dtostrf 4 st.hum) ++
  printBoth crlf

/-- Steps 1-6 of `loop()`: the sensor polls, in source order (DHT
humidity, DHT temperature, UV, MS5611, RTC, DS18B20, SCD41). -/
def senseEvents : List Event :=
  [.sensorRead .dht22, .sensorRead .dht22, .sensorRead .uvm30a,
   .sensorRead .ms5611, .sensorRead .ds1307, .sensorRead .ds18b20,
   .sensorRead .scd41]

/-- One full iteration of `loop()`: sense (steps 1-6), `SPI.begin()`,
`SD.open` in append mode, then either the dual write / close / LED
acknowledgment / 4900 ms wait, or the `SD Open Fail` diagnostic and
5000 ms wait, and finally `SPI.end()`. -/
def loopCycle (st : ScdState) (inp : CycleInputs) : ScdState × List Event :=
  (scdUpdate st inp,
   senseEvents ++ scdEvents inp ++ [.spiBegin, .sdOpen inp.sdOpenOk] ++
     (if inp.sdOpenOk then
        writeEvents (scdUpdate st inp) inp ++
          [.fileClose, .ledWrite false, .delayMs 100, .ledWrite true,
           .delayMs 4900]
      else
        [.serialWrite (("SD Open Fail") ++ crlf), .delayMs 5000]) ++
     [.spiEnd])

/-- The event trace of one cycle. -/
def cycleTrace (st : ScdState) (inp : CycleInputs) : List Event :=
  (loopCycle st inp).2

/-- The SCD41 globals carried into the next cycle. -/
def nextState (st : ScdState) (inp : CycleInputs) : ScdState :=
  (loopCycle st inp).1

/-- Iterate the cycle over a list of per-cycle inputs, returning the
final SCD41 globals. -/
def runCycles (st : ScdState) (inps : List CycleInputs) : ScdState :=
  inps.foldl nextState st

/-- Bus-discipline checker: walk a trace tracking whether storage-bus
mode (SPI) is enabled.  Sensor reads require the bus released; storage
operations (open, file write, close) require it held; the trace must
end with the bus released. -/
def busDiscipline : Bool → List Event → Bool
  | held, [] => !held
  | held, e :: rest =>
    match e with
    | .sensorRead _ => !held && busDiscipline held rest
    | .spiBegin => busDiscipline true rest
    | .spiEnd => busDiscipline false rest
    | .sdOpen _ => held && busDiscipline held rest
    | .fileWrite _ => held && busDiscipline held rest
    | .fileClose => held && busDiscipline held rest
    | .serialWrite _ => busDiscipline held rest
    | .ledWrite _ => busDiscipline held rest
    | .delayMs _ => busDiscipline held rest

/-- Number of `SPI.begin()` (bus acquire) events in a trace. -/
def countSpiBegin : List Event → Nat
  | [] => 0
  | .spiBegin :: rest => countSpiBegin rest + 1
  | _ :: rest => countSpiBegin rest

/-- Number of `SPI.end()` (bus release) events in a trace. -/
def countSpiEnd : List Event → Nat
  | [] => 0
  | .spiEnd :: rest => countSpiEnd rest + 1
  | _ :: rest => countSpiEnd rest

/-- Number of file write events in a trace. -/
def countFileWrite : List Event → Nat
  | [] => 0
  | .fileWrite _ :: rest => countFileWrite rest + 1
  | _ :: rest => countFileWrite rest

/-- Number of file close events in a trace. -/
def countFileClose : List Event → Nat
  | [] => 0
  | .fileClose :: rest => countFileClose rest + 1
  | _ :: rest => countFileClose rest

/-- Concatenation of all bytes written to the serial console in a
trace. -/
def serialBytes : List Event → String
  | [] => ("")
  | .serialWrite s :: rest => s ++ serialBytes rest
  | _ :: rest => serialBytes rest

/-- Concatenation of all bytes appended to the storage file in a
trace. -/
def fileBytes : List Event → String
  | [] => ("")
  | .fileWrite s :: rest => s ++ fileBytes rest
  | _ :: rest => fileBytes rest

/-- The successive `delay(n)` durations of a trace, in order. -/
def delayList : List Event → List Nat
  | [] => []
  | .delayMs n :: rest => n :: delayList rest
  | _ :: rest => delayList rest

/-- Total milliseconds slept in a trace. -/
def totalDelay (t : List Event) : Nat :=
  (delayList t).sum

/-- Join CSV fields with single commas: no leading, trailing, or
doubled comma. -/
def joinFields : List String → String
  | [] => ("")
  | [f] => f
  | f :: rest => f ++ (",") ++ joinFields rest

/-- A string containing no comma, so that it occupies exactly one CSV
field. -/
def commaFree (s : String) : Bool :=
  s.data.all fun c => c != ','

/-- The declared CSV header line (lines 170 and 183 of the source). -/
def header : String :=
  ("Timestamp,DHT_Temp(C),DHT_Hum(%),UV_Raw,Press(mBar),Press_Temp(C),Press_Alt(Ft),Probe_Temp(C),CO2(ppm),SCD_Temp(C),SCD_Hum(%)")

/-- The header split into its eleven declared column names. -/
def headerFields : List String :=
  [("Timestamp"), ("DHT_Temp(C)"), ("DHT_Hum(%)"), ("UV_Raw"),
   ("Press(mBar)"), ("Press_Temp(C)"), ("Press_Alt(Ft)"), ("Probe_Temp(C)"),
   ("CO2(ppm)"), ("SCD_Temp(C)"), ("SCD_Hum(%)")]

/-- The full text of one record line: timestamp, comma, the ten
comma-joined data fields, line terminator.  `st` is the post-update
SCD41 state of the cycle. -/
def recordLine (st : ScdState) (inp : CycleInputs) : String :=
  timestampStr inp.now ++ (",") ++ joinFields (dataFields st inp) ++ crlf

/-- Whether the cycle's SCD41 polling leaves the stored last-known
measurement unchanged: the ready check errored, reported not-ready, or
the measurement read errored. -/
def scdNoUpdate (inp : CycleInputs) : Bool :=
  match inp.scdReadyStatus with
  | .error _ => true
  | .ok false => true
  | .ok true =>
    match inp.scdMeasurement with
    | .error _ => true
    | .ok _ => false

/-- The Scenario A record of the specification: 2024-06-01 12:00:00,
DHT 21.5 C / 40.0 %, UV 123, 1013.25 mBar at 21.0 C and 150.00 ft,
probe 20.75 C, CO2 800 ppm at 21.3 C / 41.0 %, SD open succeeding. -/
def scenarioAInput : CycleInputs :=
  { dht_h := .num 4000, dht_t := .num 2150, uvValue := 123,
    press_mBar := .num 101325, press_Temp := .num 2100,
    press_Alt := .num 15000, now := ⟨2024, 6, 1, 12, 0, 0⟩,
    probeRaw := .num 2075,
    scdReadyStatus := .ok true,
    scdMeasurement := .ok (800, .num 2130, .num 4100),
    sdOpenOk := true }

/-- A cycle whose DHT readings are NaN and whose probe reports the
disconnected sentinel. -/
def sentinelInput : CycleInputs :=
  { scenarioAInput with dht_h := .nan, dht_t := .nan,
                        probeRaw := .num (-12700) }

/-- Like `sentinelInput` but with valid DHT and probe readings, for
checking that the remaining fields are untouched. -/
def sentinelInputAlt : CycleInputs :=
  { scenarioAInput with dht_h := .num 100, dht_t := .num 200,
                        probeRaw := .num 300 }

/-- A cycle on which the SCD41 data-ready check errors. -/
def staleInput : CycleInputs :=
  { scenarioAInput with scdReadyStatus := .error 5 }

/-- A cycle on which the SD file open fails. -/
def failOpenInput : CycleInputs :=
  { scenarioAInput with sdOpenOk := false }

/-- A cycle whose SCD41 measurement succeeds with a zero CO2 value. -/
def zeroCo2Input : CycleInputs :=
  { scenarioAInput with scdMeasurement := .ok (0, .num 2130, .num 4100) }

/-! ## Helper lemmas -/

theorem digitChar_bne_comma (m : Nat) : (Nat.digitChar m != ',') = true := by
  rcases m with _|_|_|_|_|_|_|_|_|_|_|_|_|_|_|_|m <;> rfl

theorem natDigitsAux_comma_free (fuel : Nat) :
    ∀ n : Nat, (natDigitsAux fuel n).all (fun c => c != ',') = true := by
  induction fuel with
  | zero => intro n; rfl
  | succ fuel ih =>
    intro n
    unfold natDigitsAux
    split
    · simp [digitChar_bne_comma]
    · simp [List.all_append, ih, digitChar_bne_comma]

theorem commaFree_natStr (n : Nat) : commaFree (natStr n) = true :=
  natDigitsAux_comma_free (n + 1) n

theorem commaFree_append (a b : String) :
    commaFree (a ++ b) = (commaFree a && commaFree b) := by
  simp [commaFree, String.data_append, List.all_append]

theorem commaFree_leftPad (c : Char) (w : Nat) (s : String)
    (hc : (c != ',') = true) (hs : commaFree s = true) :
    commaFree (leftPad c w s) = true := by
  unfold leftPad
  split
  · rw [show ((⟨List.replicate (w - s.length) c⟩ : String) ++ s) =
        String.mk (List.replicate (w - s.length) c ++ s.data) from rfl]
    simp only [commaFree, List.all_append] at hs ⊢
    simp only [Bool.and_eq_true]
    refine ⟨?_, hs⟩
    simp only [List.all_eq_true]
    intro x hx
    rcases List.eq_of_mem_replicate hx with rfl
    exact hc
  · exact hs

theorem commaFree_intStr (i : Int) : commaFree (intStr i) = true := by
  unfold intStr
  split
  · rw [commaFree_append]
    simp [commaFree_natStr]
    decide
  · exact commaFree_natStr _

theorem commaFree_fixed2 (v : Int) : commaFree (fixed2 v) = true := by
  unfold fixed2
  rw [commaFree_append, commaFree_append, commaFree_append]
  simp only [Bool.and_eq_true]
  refine ⟨⟨⟨?_, commaFree_natStr _⟩, by decide⟩,
    commaFree_leftPad _ _ _ (by decide) (commaFree_natStr _)⟩
  split <;> decide

theorem commaFree_dtostrf (w : Nat) (v : FVal) :
    commaFree (dtostrf w v) = true := by
  cases v with
  | nan => exact commaFree_leftPad _ _ _ (by decide) (by decide)
  | num c => exact commaFree_leftPad _ _ _ (by decide) (commaFree_fixed2 c)

theorem commaFree_dhtField (v : FVal) : commaFree (dhtField v) = true := by
  unfold dhtField
  split
  · decide
  · exact commaFree_dtostrf 4 v

theorem commaFree_pad0 (w n : Nat) : commaFree (pad0 w n) = true :=
  commaFree_leftPad _ _ _ (by decide) (commaFree_natStr n)

theorem commaFree_timestampStr (t : DateTime) :
    commaFree (timestampStr t) = true := by
  unfold timestampStr
  repeat rw [commaFree_append]
  simp [commaFree_pad0]
  decide

/-! ## Trace decomposition lemmas -/

theorem scdEvents_serialOnly (inp : CycleInputs) :
    ∀ e ∈ scdEvents inp, ∃ s, e = Event.serialWrite s := by
  unfold scdEvents
  rcases inp.scdReadyStatus with e | b
  · intro x hx
    rcases List.mem_cons.mp hx with rfl | hx
    · exact ⟨_, rfl⟩
    rcases List.mem_cons.mp hx with rfl | hx
    · exact ⟨_, rfl⟩
    cases hx
  · cases b
    · intro x hx; cases hx
    · rcases inp.scdMeasurement with e | ⟨c, t, h⟩
      · intro x hx
        rcases List.mem_cons.mp hx with rfl | hx
        · exact ⟨_, rfl⟩
        rcases List.mem_cons.mp hx with rfl | hx
        · exact ⟨_, rfl⟩
        cases hx
      · intro x hx; cases hx

theorem scdUpdate_of_noUpdate (st : ScdState) (inp : CycleInputs)
    (h : scdNoUpdate inp = true) : scdUpdate st inp = st := by
  unfold scdNoUpdate at h
  unfold scdUpdate
  rcases hr : inp.scdReadyStatus with e | b
  · rfl
  · rw [hr] at h
    cases b
    · rfl
    · rcases hm : inp.scdMeasurement with e | ⟨c, t, hu⟩
      · simp [hm]
      · rw [hm] at h
        simp at h

theorem busDiscipline_serialOnly (l rest : List Event) (b : Bool)
    (h : ∀ e ∈ l, ∃ s, e = Event.serialWrite s) :
    busDiscipline b (l ++ rest) = busDiscipline b rest := by
  induction l with
  | nil => rfl
  | cons e l ih =>
    obtain ⟨s, rfl⟩ := h e (List.mem_cons_self e l)
    rw [List.cons_append]
    show busDiscipline b (l ++ rest) = busDiscipline b rest
    exact ih fun x hx => h x (List.mem_cons_of_mem _ hx)

theorem countSpiBegin_serialOnly (l rest : List Event)
    (h : ∀ e ∈ l, ∃ s, e = Event.serialWrite s) :
    countSpiBegin (l ++ rest) = countSpiBegin rest := by
  induction l with
  | nil => rfl
  | cons e l ih =>
    obtain ⟨s, rfl⟩ := h e (List.mem_cons_self e l)
    rw [List.cons_append]
    show countSpiBegin (l ++ rest) = countSpiBegin rest
    exact ih fun x hx => h x (List.mem_cons_of_mem _ hx)

theorem countSpiEnd_serialOnly (l rest : List Event)
    (h : ∀ e ∈ l, ∃ s, e = Event.serialWrite s) :
    countSpiEnd (l ++ rest) = countSpiEnd rest := by
  induction l with
  | nil => rfl
  | cons e l ih =>
    obtain ⟨s, rfl⟩ := h e (List.mem_cons_self e l)
    rw [List.cons_append]
    show countSpiEnd (l ++ rest) = countSpiEnd rest
    exact ih fun x hx => h x (List.mem_cons_of_mem _ hx)

theorem countFileWrite_serialOnly (l rest : List Event)
    (h : ∀ e ∈ l, ∃ s, e = Event.serialWrite s) :
    countFileWrite (l ++ rest) = countFileWrite rest := by
  induction l with
  | nil => rfl
  | cons e l ih =>
    obtain ⟨s, rfl⟩ := h e (List.mem_cons_self e l)
    rw [List.cons_append]
    show countFileWrite (l ++ rest) = countFileWrite rest
    exact ih fun x hx => h x (List.mem_cons_of_mem _ hx)

theorem countFileClose_serialOnly (l rest : List Event)
    (h : ∀ e ∈ l, ∃ s, e = Event.serialWrite s) :
    countFileClose (l ++ rest) = countFileClose rest := by
  induction l with
  | nil => rfl
  | cons e l ih =>
    obtain ⟨s, rfl⟩ := h e (List.mem_cons_self e l)
    rw [List.cons_append]
    show countFileClose (l ++ rest) = countFileClose rest
    exact ih fun x hx => h x (List.mem_cons_of_mem _ hx)

theorem fileBytes_serialOnly (l rest : List Event)
    (h : ∀ e ∈ l, ∃ s, e = Event.serialWrite s) :
    fileBytes (l ++ rest) = fileBytes rest := by
  induction l with
  | nil => rfl
  | cons e l ih =>
    obtain ⟨s, rfl⟩ := h e (List.mem_cons_self e l)
    rw [List.cons_append]
    show fileBytes (l ++ rest) = fileBytes rest
    exact ih fun x hx => h x (List.mem_cons_of_mem _ hx)

theorem delayList_serialOnly (l rest : List Event)
    (h : ∀ e ∈ l, ∃ s, e = Event.serialWrite s) :
    delayList (l ++ rest) = delayList rest := by
  induction l with
  | nil => rfl
  | cons e l ih =>
    obtain ⟨s, rfl⟩ := h e (List.mem_cons_self e l)
    rw [List.cons_append]
    show delayList (l ++ rest) = delayList rest
    exact ih fun x hx => h x (List.mem_cons_of_mem _ hx)

theorem busDiscipline_writeEvents (st : ScdState) (inp : CycleInputs)
    (rest : List Event) :
    busDiscipline true (writeEvents st inp ++ rest) = busDiscipline true rest := by
  unfold writeEvents printBoth
  simp only [List.cons_append, List.nil_append, List.append_assoc]
  simp only [busDiscipline, Bool.true_and]

theorem countSpiBegin_writeEvents (st : ScdState) (inp : CycleInputs)
    (rest : List Event) :
    countSpiBegin (writeEvents st inp ++ rest) = countSpiBegin rest := by
  unfold writeEvents printBoth
  simp only [List.cons_append, List.nil_append, List.append_assoc]
  simp only [countSpiBegin]

theorem countSpiEnd_writeEvents (st : ScdState) (inp : CycleInputs)
    (rest : List Event) :
    countSpiEnd (writeEvents st inp ++ rest) = countSpiEnd rest := by
  unfold writeEvents printBoth
  simp only [List.cons_append, List.nil_append, List.append_assoc]
  simp only [countSpiEnd]

theorem countFileClose_writeEvents (st : ScdState) (inp : CycleInputs)
    (rest : List Event) :
    countFileClose (writeEvents st inp ++ rest) = countFileClose rest := by
  unfold writeEvents printBoth
  simp only [List.cons_append, List.nil_append, List.append_assoc]
  simp only [countFileClose]

theorem delayList_writeEvents (st : ScdState) (inp : CycleInputs)
    (rest : List Event) :
    delayList (writeEvents st inp ++ rest) = delayList rest := by
  unfold writeEvents printBoth
  simp only [List.cons_append, List.nil_append, List.append_assoc]
  simp only [delayList]

theorem fileBytes_writeEvents (st : ScdState) (inp : CycleInputs)
    (rest : List Event) :
    fileBytes (writeEvents st inp ++ rest) =
      timestampStr inp.now ++ (",") ++ joinFields (dataFields st inp) ++ crlf ++
        fileBytes rest := by
  unfold writeEvents printBoth
  simp only [List.cons_append, List.nil_append, List.append_assoc]
  simp only [fileBytes, dataFields, joinFields, String.append_assoc]

theorem serialBytes_writeEvents (st : ScdState) (inp : CycleInputs)
    (rest : List Event) :
    serialBytes (writeEvents st inp ++ rest) =
      timestampStr inp.now ++ (",") ++ joinFields (dataFields st inp) ++ crlf ++
        serialBytes rest := by
  unfold writeEvents printBoth
  simp only [List.cons_append, List.nil_append, List.append_assoc]
  simp only [serialBytes, dataFields, joinFields, String.append_assoc]

theorem cycleTrace_decomp (st : ScdState) (inp : CycleInputs) :
    cycleTrace st inp =
      senseEvents ++ scdEvents inp ++ [.spiBegin, .sdOpen inp.sdOpenOk] ++
        (if inp.sdOpenOk then
          writeEvents (scdUpdate st inp) inp ++
            [.fileClose, .ledWrite false, .delayMs 100, .ledWrite true,
             .delayMs 4900]
        else
          [.serialWrite (("SD Open Fail") ++ crlf), .delayMs 5000]) ++
        [.spiEnd] := rfl

theorem nextState_eq_scdUpdate (st : ScdState) (inp : CycleInputs) :
    nextState st inp = scdUpdate st inp := rfl

theorem busDiscipline_sense (X : List Event) :
    busDiscipline false (senseEvents ++ X) = busDiscipline false X := rfl

theorem busDiscipline_acquire (b : Bool) (X : List Event) :
    busDiscipline false (Event.spiBegin :: Event.sdOpen b :: X) =
      busDiscipline true X := rfl

theorem busDiscipline_cycleTrace (st : ScdState) (inp : CycleInputs) :
    busDiscipline false (cycleTrace st inp) = true := by
  rw [cycleTrace_decomp]
  cases hs : inp.sdOpenOk
  · simp only [Bool.false_eq_true, if_false, List.append_assoc, List.cons_append,
      List.nil_append]
    rw [busDiscipline_sense, busDiscipline_serialOnly _ _ _ (scdEvents_serialOnly inp)]
    rfl
  · simp only [if_true, List.append_assoc, List.cons_append, List.nil_append]
    rw [busDiscipline_sense, busDiscipline_serialOnly _ _ _ (scdEvents_serialOnly inp),
      busDiscipline_acquire, busDiscipline_writeEvents]
    rfl

theorem countSpiBegin_sense (X : List Event) :
    countSpiBegin (senseEvents ++ X) = countSpiBegin X := rfl

theorem countSpiBegin_acquire (b : Bool) (X : List Event) :
    countSpiBegin (Event.spiBegin :: Event.sdOpen b :: X) =
      countSpiBegin X + 1 := rfl

theorem countSpiBegin_cycleTrace (st : ScdState) (inp : CycleInputs) :
    countSpiBegin (cycleTrace st inp) = 1 := by
  rw [cycleTrace_decomp]
  cases hs : inp.sdOpenOk
  · simp only [Bool.false_eq_true, if_false, List.append_assoc, List.cons_append,
      List.nil_append]
    rw [countSpiBegin_sense, countSpiBegin_serialOnly _ _ (scdEvents_serialOnly inp),
      countSpiBegin_acquire]
    rfl
  · simp only [if_true, List.append_assoc, List.cons_append, List.nil_append]
    rw [countSpiBegin_sense, countSpiBegin_serialOnly _ _ (scdEvents_serialOnly inp),
      countSpiBegin_acquire, countSpiBegin_writeEvents]
    rfl

theorem countSpiEnd_sense (X : List Event) :
    countSpiEnd (senseEvents ++ X) = countSpiEnd X := rfl

theorem countSpiEnd_acquire (b : Bool) (X : List Event) :
    countSpiEnd (Event.spiBegin :: Event.sdOpen b :: X) = countSpiEnd X := rfl

theorem countSpiEnd_cycleTrace (st : ScdState) (inp : CycleInputs) :
    countSpiEnd (cycleTrace st inp) = 1 := by
  rw [cycleTrace_decomp]
  cases hs : inp.sdOpenOk
  · simp only [Bool.false_eq_true, if_false, List.append_assoc, List.cons_append,
      List.nil_append]
    rw [countSpiEnd_sense, countSpiEnd_serialOnly _ _ (scdEvents_serialOnly inp),
      countSpiEnd_acquire]
    rfl
  · simp only [if_true, List.append_assoc, List.cons_append, List.nil_append]
    rw [countSpiEnd_sense, countSpiEnd_serialOnly _ _ (scdEvents_serialOnly inp),
      countSpiEnd_acquire, countSpiEnd_writeEvents]
    rfl

theorem fileBytes_sense (X : List Event) :
    fileBytes (senseEvents ++ X) = fileBytes X := rfl

theorem fileBytes_acquire (b : Bool) (X : List Event) :
    fileBytes (Event.spiBegin :: Event.sdOpen b :: X) = fileBytes X := rfl

theorem fileBytes_writeEvents_only (st : ScdState) (inp : CycleInputs) :
    fileBytes (writeEvents st inp) = recordLine st inp := by
  have h := fileBytes_writeEvents st inp []
  rw [List.append_nil] at h
  rw [h]
  show recordLine st inp ++ ("") = recordLine st inp
  exact String.append_empty _

theorem serialBytes_writeEvents_only (st : ScdState) (inp : CycleInputs) :
    serialBytes (writeEvents st inp) = recordLine st inp := by
  have h := serialBytes_writeEvents st inp []
  rw [List.append_nil] at h
  rw [h]
  show recordLine st inp ++ ("") = recordLine st inp
  exact String.append_empty _

theorem fileBytes_cycleTrace_success (st : ScdState) (inp : CycleInputs)
    (hs : inp.sdOpenOk = true) :
    fileBytes (cycleTrace st inp) = recordLine (scdUpdate st inp) inp := by
  rw [cycleTrace_decomp, hs]
  simp only [if_true, List.append_assoc, List.cons_append, List.nil_append]
  rw [fileBytes_sense, fileBytes_serialOnly _ _ (scdEvents_serialOnly inp),
    fileBytes_acquire, fileBytes_writeEvents]
  show recordLine (scdUpdate st inp) inp ++ ("") = recordLine (scdUpdate st inp) inp
  exact String.append_empty _

theorem fileBytes_cycleTrace_fail (st : ScdState) (inp : CycleInputs)
    (hs : inp.sdOpenOk = false) :
    fileBytes (cycleTrace st inp) = ("") := by
  rw [cycleTrace_decomp, hs]
  simp only [Bool.false_eq_true, if_false, List.append_assoc, List.cons_append,
    List.nil_append]
  rw [fileBytes_sense, fileBytes_serialOnly _ _ (scdEvents_serialOnly inp),
    fileBytes_acquire]
  rfl

theorem countFileWrite_sense (X : List Event) :
    countFileWrite (senseEvents ++ X) = countFileWrite X := rfl

theorem countFileWrite_acquire (b : Bool) (X : List Event) :
    countFileWrite (Event.spiBegin :: Event.sdOpen b :: X) = countFileWrite X := rfl

theorem countFileWrite_cycleTrace_fail (st : ScdState) (inp : CycleInputs)
    (hs : inp.sdOpenOk = false) :
    countFileWrite (cycleTrace st inp) = 0 := by
  rw [cycleTrace_decomp, hs]
  simp only [Bool.false_eq_true, if_false, List.append_assoc, List.cons_append,
    List.nil_append]
  rw [countFileWrite_sense, countFileWrite_serialOnly _ _ (scdEvents_serialOnly inp),
    countFileWrite_acquire]
  rfl

theorem countFileClose_sense (X : List Event) :
    countFileClose (senseEvents ++ X) = countFileClose X := rfl

theorem countFileClose_acquire (b : Bool) (X : List Event) :
    countFileClose (Event.spiBegin :: Event.sdOpen b :: X) = countFileClose X := rfl

theorem countFileClose_cycleTrace_success (st : ScdState) (inp : CycleInputs)
    (hs : inp.sdOpenOk = true) :
    countFileClose (cycleTrace st inp) = 1 := by
  rw [cycleTrace_decomp, hs]
  simp only [if_true, List.append_assoc, List.cons_append, List.nil_append]
  rw [countFileClose_sense, countFileClose_serialOnly _ _ (scdEvents_serialOnly inp),
    countFileClose_acquire, countFileClose_writeEvents]
  rfl

theorem countFileClose_cycleTrace_fail (st : ScdState) (inp : CycleInputs)
    (hs : inp.sdOpenOk = false) :
    countFileClose (cycleTrace st inp) = 0 := by
  rw [cycleTrace_decomp, hs]
  simp only [Bool.false_eq_true, if_false, List.append_assoc, List.cons_append,
    List.nil_append]
  rw [countFileClose_sense, countFileClose_serialOnly _ _ (scdEvents_serialOnly inp),
    countFileClose_acquire]
  rfl

theorem delayList_sense (X : List Event) :
    delayList (senseEvents ++ X) = delayList X := rfl

theorem delayList_acquire (b : Bool) (X : List Event) :
    delayList (Event.spiBegin :: Event.sdOpen b :: X) = delayList X := rfl

theorem delayList_cycleTrace_success (st : ScdState) (inp : CycleInputs)
    (hs : inp.sdOpenOk = true) :
    delayList (cycleTrace st inp) = [100, 4900] := by
  rw [cycleTrace_decomp, hs]
  simp only [if_true, List.append_assoc, List.cons_append, List.nil_append]
  rw [delayList_sense, delayList_serialOnly _ _ (scdEvents_serialOnly inp),
    delayList_acquire, delayList_writeEvents]
  rfl

theorem delayList_cycleTrace_fail (st : ScdState) (inp : CycleInputs)
    (hs : inp.sdOpenOk = false) :
    delayList (cycleTrace st inp) = [5000] := by
  rw [cycleTrace_decomp, hs]
  simp only [Bool.false_eq_true, if_false, List.append_assoc, List.cons_append,
    List.nil_append]
  rw [delayList_sense, delayList_serialOnly _ _ (scdEvents_serialOnly inp),
    delayList_acquire]
  rfl

theorem diag_mem_cycleTrace_fail (st : ScdState) (inp : CycleInputs)
    (hs : inp.sdOpenOk = false) :
    Event.serialWrite (("SD Open Fail") ++ crlf) ∈ cycleTrace st inp := by
  rw [cycleTrace_decomp, hs]
  simp only [Bool.false_eq_true, if_false, List.append_assoc, List.cons_append,
    List.nil_append, List.mem_append, List.mem_cons]
  tauto

theorem commaFree_dataFields (st : ScdState) (inp : CycleInputs) :
    ∀ f ∈ dataFields st inp, commaFree f = true := by
  intro f hf
  simp only [dataFields, List.mem_cons, List.not_mem_nil, or_false] at hf
  rcases hf with rfl | rfl | rfl | rfl | rfl | rfl | rfl | rfl | rfl | rfl
  · exact commaFree_dhtField _
  · exact commaFree_dhtField _
  · exact commaFree_intStr _
  · exact commaFree_dtostrf _ _
  · exact commaFree_dtostrf _ _
  · exact commaFree_dtostrf _ _
  · exact commaFree_dtostrf _ _
  · exact commaFree_natStr _
  · exact commaFree_dtostrf _ _
  · exact commaFree_dtostrf _ _

/-! ## Claim theorems -/

/-- C1: every acquisition cycle acquires the SPI bus (`SPI.begin`)
exactly as many times as it releases it (`SPI.end`), once each; the
walk of the trace shows the bus released at every sensor read (so
before the first one), held at every storage operation, and released
again before the cycle ends, on both the success path and the
open-failure path. -/
theorem cycle_bus_discipline (st : ScdState) (inp : CycleInputs) :
    countSpiBegin (cycleTrace st inp) = countSpiEnd (cycleTrace st inp) ∧
    countSpiBegin (cycleTrace st inp) = 1 ∧
    busDiscipline false (cycleTrace st inp) = true :=
  ⟨by rw [countSpiBegin_cycleTrace, countSpiEnd_cycleTrace],
   countSpiBegin_cycleTrace st inp, busDiscipline_cycleTrace st inp⟩

/-- C2: on every successful cycle the bytes appended to storage form
the timestamp field, a comma, and exactly the 10 comma-joined data
fields in declared order with no trailing comma; no field and no
timestamp contains a comma, and the declared header has exactly one
more column (the timestamp) than there are data fields. -/
theorem record_schema (st : ScdState) (inp : CycleInputs)
    (hs : inp.sdOpenOk = true) :
    fileBytes (cycleTrace st inp) =
      timestampStr inp.now ++ (",") ++
        joinFields (dataFields (scdUpdate st inp) inp) ++ crlf ∧
    (dataFields (scdUpdate st inp) inp).length = 10 ∧
    (∀ f ∈ dataFields (scdUpdate st inp) inp, commaFree f = true) ∧
    commaFree (timestampStr inp.now) = true ∧
    header = joinFields headerFields ∧
    headerFields.length = (dataFields (scdUpdate st inp) inp).length + 1 :=
  ⟨fileBytes_cycleTrace_success st inp hs, rfl,
   commaFree_dataFields _ inp, commaFree_timestampStr inp.now, rfl, rfl⟩

/-- C2 witness: the schema properties evaluated on the Scenario A
cycle. -/
theorem record_schema_witness :
    fileBytes (cycleTrace ScdInit scenarioAInput) =
      timestampStr scenarioAInput.now ++ (",") ++
        joinFields (dataFields (scdUpdate ScdInit scenarioAInput) scenarioAInput) ++
        crlf ∧
    (dataFields (scdUpdate ScdInit scenarioAInput) scenarioAInput).length = 10 := by
  have h := record_schema ScdInit scenarioAInput rfl
  exact ⟨h.1, h.2.1⟩

/-- C3: the Scenario A record (2024-06-01 12:00:00, DHT 21.5/40.0,
UV 123, 1013.25 mBar / 21.0 C / 150.00 ft, probe 20.75 C, CO2 800 ppm /
21.3 C / 41.0 %) is appended to storage as exactly the specified line,
zero-padded timestamp, two-decimal floats, unpadded integers. -/
theorem scenarioA_line :
    fileBytes (cycleTrace ScdInit scenarioAInput) =
      ("2024-06-01T12:00:00,21.50,40.00,123,1013.25,21.00,150.00,20.75,800,21.30,41.00")
        ++ crlf := by
  rfl

/-- C4: a NaN DHT temperature or humidity reading renders its field as
the literal `NaN`; a probe reading equal to `DEVICE_DISCONNECTED_C`
renders its field as `-127.00`; every other field of the record is
unchanged by these substitutions (it depends only on its own reading
and the carried SCD state). -/
theorem sentinel_substitution (st : ScdState) (inp : CycleInputs) :
    (inp.dht_t.isNan = true → (dataFields st inp)[0]? = some ("NaN")) ∧
    (inp.dht_h.isNan = true → (dataFields st inp)[1]? = some ("NaN")) ∧
    (inp.probeRaw = DEVICE_DISCONNECTED_C →
      (dataFields st inp)[6]? = some ("-127.00")) ∧
    (∀ inp2 : CycleInputs,
      inp2.uvValue = inp.uvValue → inp2.press_mBar = inp.press_mBar →
      inp2.press_Temp = inp.press_Temp → inp2.press_Alt = inp.press_Alt →
      inp2.now = inp.now →
      timestampStr inp2.now = timestampStr inp.now ∧
      (dataFields st inp2)[2]? = (dataFields st inp)[2]? ∧
      (dataFields st inp2)[3]? = (dataFields st inp)[3]? ∧
      (dataFields st inp2)[4]? = (dataFields st inp)[4]? ∧
      (dataFields st inp2)[5]? = (dataFields st inp)[5]? ∧
      (dataFields st inp2)[7]? = (dataFields st inp)[7]? ∧
      (dataFields st inp2)[8]? = (dataFields st inp)[8]? ∧
      (dataFields st inp2)[9]? = (dataFields st inp)[9]?) := by
  refine ⟨?_, ?_, ?_, ?_⟩
  · intro h
    show some (dhtField inp.dht_t) = some ("NaN")
    unfold dhtField
    rw [h]
    rfl
  · intro h
    show some (dhtField inp.dht_h) = some ("NaN")
    unfold dhtField
    rw [h]
    rfl
  · intro h
    show some (dtostrf 4 (probeVal inp.probeRaw)) = some ("-127.00")
    rw [h]
    rfl
  · intro inp2 h1 h2 h3 h4 h5
    refine ⟨by rw [h5], ?_, ?_, ?_, ?_, rfl, rfl, rfl⟩
    · show some (intStr inp2.uvValue) = some (intStr inp.uvValue)
      rw [h1]
    · show some (dtostrf 6 inp2.press_mBar) = some (dtostrf 6 inp.press_mBar)
      rw [h2]
    · show some (dtostrf 4 inp2.press_Temp) = some (dtostrf 4 inp.press_Temp)
      rw [h3]
    · show some (dtostrf 6 inp2.press_Alt) = some (dtostrf 6 inp.press_Alt)
      rw [h4]

/-- C4 witness: the substitutions evaluated on a cycle with NaN DHT
readings and a disconnected probe, with the UV field checked against a
cycle differing only in those readings. -/
theorem sentinel_substitution_witness :
    (dataFields ScdInit sentinelInput)[0]? = some ("NaN") ∧
    (dataFields ScdInit sentinelInput)[1]? = some ("NaN") ∧
    (dataFields ScdInit sentinelInput)[6]? = some ("-127.00") ∧
    (dataFields ScdInit sentinelInputAlt)[2]? =
      (dataFields ScdInit sentinelInput)[2]? := by
  have h := sentinel_substitution ScdInit sentinelInput
  exact ⟨h.1 rfl, h.2.1 rfl, h.2.2.1 rfl,
    (h.2.2.2 sentinelInputAlt rfl rfl rfl rfl rfl).2.1⟩

/-- C5: when the SCD41 ready check errors, reports not-ready, or the
measurement read errors, the stored last-known CO2/temperature/humidity
globals are unchanged and the CO2(ppm), SCD_Temp, SCD_Hum fields are
formatted from those stored (stale) values, with no sentinel
substitution. -/
theorem co2_stale_on_error (st : ScdState) (inp : CycleInputs)
    (h : scdNoUpdate inp = true) :
    nextState st inp = st ∧
    (dataFields (nextState st inp) inp)[7]? = some (natStr st.co2) ∧
    (dataFields (nextState st inp) inp)[8]? = some (dtostrf 4 st.temp) ∧
    (dataFields (nextState st inp) inp)[9]? = some (dtostrf 4 st.hum) := by
  have hst : nextState st inp = st := by
    rw [nextState_eq_scdUpdate]
    exact scdUpdate_of_noUpdate st inp h
  refine ⟨hst, ?_, ?_, ?_⟩ <;> rw [hst] <;> rfl

/-- C5 witness: the stale-value behaviour evaluated on a cycle whose
ready check returns error code 5. -/
theorem co2_stale_on_error_witness :
    nextState ScdInit staleInput = ScdInit ∧
    (dataFields (nextState ScdInit staleInput) staleInput)[7]? =
      some (natStr ScdInit.co2) := by
  have h := co2_stale_on_error ScdInit staleInput rfl
  exact ⟨h.1, h.2.1⟩

/-- C6: when the SD open fails, nothing is written to or closed on the
storage file, the `SD Open Fail` diagnostic line is printed to the
console, the bus discipline still holds (SPI is released before the
cycle ends), and the only sleep is the full 5000 ms interval. -/
theorem open_failure_isolated (st : ScdState) (inp : CycleInputs)
    (hs : inp.sdOpenOk = false) :
    countFileWrite (cycleTrace st inp) = 0 ∧
    countFileClose (cycleTrace st inp) = 0 ∧
    fileBytes (cycleTrace st inp) = ("") ∧
    Event.serialWrite (("SD Open Fail") ++ crlf) ∈ cycleTrace st inp ∧
    busDiscipline false (cycleTrace st inp) = true ∧
    delayList (cycleTrace st inp) = [5000] :=
  ⟨countFileWrite_cycleTrace_fail st inp hs,
   countFileClose_cycleTrace_fail st inp hs,
   fileBytes_cycleTrace_fail st inp hs,
   diag_mem_cycleTrace_fail st inp hs,
   busDiscipline_cycleTrace st inp,
   delayList_cycleTrace_fail st inp hs⟩

/-- C6 witness: the failure isolation evaluated on a cycle whose SD
open fails. -/
theorem open_failure_isolated_witness :
    countFileWrite (cycleTrace ScdInit failOpenInput) = 0 ∧
    countFileClose (cycleTrace ScdInit failOpenInput) = 0 ∧
    fileBytes (cycleTrace ScdInit failOpenInput) = ("") ∧
    Event.serialWrite (("SD Open Fail") ++ crlf) ∈
      cycleTrace ScdInit failOpenInput ∧
    busDiscipline false (cycleTrace ScdInit failOpenInput) = true ∧
    delayList (cycleTrace ScdInit failOpenInput) = [5000] :=
  open_failure_isolated ScdInit failOpenInput rfl

/-- C7: each cycle's record is written atomically: on a successful
open the file receives exactly the whole record line and is closed
once; on a failed open the file receives no bytes and no write events
at all. -/
theorem record_atomicity (st : ScdState) (inp : CycleInputs) :
    (inp.sdOpenOk = true →
      fileBytes (cycleTrace st inp) = recordLine (scdUpdate st inp) inp ∧
      countFileClose (cycleTrace st inp) = 1) ∧
    (inp.sdOpenOk = false →
      fileBytes (cycleTrace st inp) = ("") ∧
      countFileWrite (cycleTrace st inp) = 0) :=
  ⟨fun hs => ⟨fileBytes_cycleTrace_success st inp hs,
     countFileClose_cycleTrace_success st inp hs⟩,
   fun hs => ⟨fileBytes_cycleTrace_fail st inp hs,
     countFileWrite_cycleTrace_fail st inp hs⟩⟩

/-- C7 witness: atomicity evaluated on a succeeding cycle and on a
failing-open cycle. -/
theorem record_atomicity_witness :
    (fileBytes (cycleTrace ScdInit scenarioAInput) =
       recordLine (scdUpdate ScdInit scenarioAInput) scenarioAInput ∧
     countFileClose (cycleTrace ScdInit scenarioAInput) = 1) ∧
    (fileBytes (cycleTrace ScdInit failOpenInput) = ("") ∧
     countFileWrite (cycleTrace ScdInit failOpenInput) = 0) :=
  ⟨(record_atomicity ScdInit scenarioAInput).1 rfl,
   (record_atomicity ScdInit failOpenInput).2 rfl⟩

/-- C8: on a successful cycle the bytes the write section sends to the
serial console are identical to the bytes it appends to the storage
file, and those are exactly the file bytes of the whole cycle — for
every state and every possible set of readings. -/
theorem dual_sink_identical (st : ScdState) (inp : CycleInputs)
    (hs : inp.sdOpenOk = true) :
    serialBytes (writeEvents (nextState st inp) inp) =
      fileBytes (writeEvents (nextState st inp) inp) ∧
    fileBytes (cycleTrace st inp) =
      serialBytes (writeEvents (nextState st inp) inp) := by
  rw [nextState_eq_scdUpdate, serialBytes_writeEvents_only,
    fileBytes_writeEvents_only, fileBytes_cycleTrace_success st inp hs]
  exact ⟨rfl, rfl⟩

/-- C8 witness: byte-identical sinks evaluated on the Scenario A
cycle. -/
theorem dual_sink_identical_witness :
    serialBytes (writeEvents (nextState ScdInit scenarioAInput) scenarioAInput) =
      fileBytes (writeEvents (nextState ScdInit scenarioAInput) scenarioAInput) ∧
    fileBytes (cycleTrace ScdInit scenarioAInput) =
      serialBytes (writeEvents (nextState ScdInit scenarioAInput) scenarioAInput) :=
  dual_sink_identical ScdInit scenarioAInput rfl

/-- C9: every cycle sleeps a total of 5000 ms: the success path blinks
for 100 ms and then sleeps 4900 ms, the open-failure path sleeps the
full 5000 ms. -/
theorem cycle_timing (st : ScdState) (inp : CycleInputs) :
    totalDelay (cycleTrace st inp) = 5000 ∧
    (inp.sdOpenOk = true → delayList (cycleTrace st inp) = [100, 4900]) ∧
    (inp.sdOpenOk = false → delayList (cycleTrace st inp) = [5000]) := by
  refine ⟨?_, fun hs => delayList_cycleTrace_success st inp hs,
    fun hs => delayList_cycleTrace_fail st inp hs⟩
  unfold totalDelay
  cases hs : inp.sdOpenOk
  · rw [delayList_cycleTrace_fail st inp hs]
    rfl
  · rw [delayList_cycleTrace_success st inp hs]
    rfl

/-- C9 witness: the delay sequences of a succeeding cycle and of a
failing-open cycle. -/
theorem cycle_timing_witness :
    delayList (cycleTrace ScdInit scenarioAInput) = [100, 4900] ∧
    delayList (cycleTrace ScdInit failOpenInput) = [5000] :=
  ⟨(cycle_timing ScdInit scenarioAInput).2.1 rfl,
   (cycle_timing ScdInit failOpenInput).2.2 rfl⟩

/-- C10: the SCD41 globals start at zero, so every record produced
before the first successful measurement renders CO2(ppm), SCD_Temp and
SCD_Hum as `0`, `0.00`, `0.00`; and a successful measurement with CO2
value zero overwrites the globals with that zero reading (the empty
zero branch filters nothing), so `0` appears in subsequent records. -/
theorem co2_zero_behaviour :
    ScdInit = ⟨0, .num 0, .num 0⟩ ∧
    (∀ inps : List CycleInputs, (∀ inp ∈ inps, scdNoUpdate inp = true) →
      runCycles ScdInit inps = ScdInit) ∧
    (∀ inp : CycleInputs, scdNoUpdate inp = true →
      (dataFields (nextState ScdInit inp) inp)[7]? = some ("0") ∧
      (dataFields (nextState ScdInit inp) inp)[8]? = some ("0.00") ∧
      (dataFields (nextState ScdInit inp) inp)[9]? = some ("0.00")) ∧
    (∀ (st : ScdState) (inp : CycleInputs) (t h : FVal),
      inp.scdReadyStatus = Except.ok true →
      inp.scdMeasurement = Except.ok (0, t, h) →
      nextState st inp = ⟨0, t, h⟩) ∧
    (∀ (t h : FVal) (inp2 : CycleInputs),
      (dataFields ⟨0, t, h⟩ inp2)[7]? = some ("0")) := by
  refine ⟨rfl, ?_, ?_, ?_, fun t h inp2 => rfl⟩
  · intro inps
    induction inps with
    | nil => intro _; rfl
    | cons i is ih =>
      intro hall
      have h1 : nextState ScdInit i = ScdInit := by
        rw [nextState_eq_scdUpdate]
        exact scdUpdate_of_noUpdate _ _ (hall i (List.mem_cons_self i is))
      show runCycles (nextState ScdInit i) is = ScdInit
      rw [h1]
      exact ih fun x hx => hall x (List.mem_cons_of_mem _ hx)
  · intro inp h
    have h1 : nextState ScdInit inp = ScdInit := by
      rw [nextState_eq_scdUpdate]
      exact scdUpdate_of_noUpdate _ _ h
    rw [h1]
    exact ⟨rfl, rfl, rfl⟩
  · intro st inp t h hr hm
    rw [nextState_eq_scdUpdate]
    unfold scdUpdate
    rw [hr, hm]
    rfl

/-- C10 witness: initial zero rendering across an unsuccessful cycle,
and a zero-valued successful measurement overwriting the globals. -/
theorem co2_zero_behaviour_witness :
    runCycles ScdInit [staleInput] = ScdInit ∧
    (dataFields (nextState ScdInit staleInput) staleInput)[7]? = some ("0") ∧
    nextState ScdInit zeroCo2Input = ⟨0, .num 2130, .num 4100⟩ ∧
    (dataFields (⟨0, .num 2130, .num 4100⟩ : ScdState) scenarioAInput)[7]? =
      some ("0") := by
  have h := co2_zero_behaviour
  refine ⟨h.2.1 [staleInput] ?_, (h.2.2.1 staleInput rfl).1,
    h.2.2.2.1 ScdInit zeroCo2Input (.num 2130) (.num 4100) rfl rfl,
    h.2.2.2.2 (.num 2130) (.num 4100) scenarioAInput⟩
  intro inp hm
  rcases List.mem_singleton.mp hm with rfl
  rfl
